import Mathlib

/-!
Verification of the request-authorization pipeline of this repository:
a shallow embedding of the tRPC middleware chain in
src/apps/platform/trpc/trpc.ts and of the session-resolution event
handler, followed by theorems settling the specification claims.

Modelling conventions:
  - JavaScript truthiness on strings is modelled explicitly: a string is
    falsy exactly when it is the empty string, and an optional string is
    falsy when it is `none` or `some ""`.
  - Thrown TRPCError values become the `Except.error` branch; `next(...)`
    becomes `Except.ok` carrying the forwarded context.
  - External collaborators (the turnstile verification API, the unkey
    rate-limit service, the session store) are oracle function parameters.
  - `useRuntimeConfig()` and `process.env.NODE_ENV` are fields of a
    `RuntimeConfig` value. Where the moment of the configuration read
    matters, a time-indexed configuration `Nat → RuntimeConfig` is used:
    index 0 is process start (when the procedure objects are built) and
    index n is the time of the n-th gated call.
-/

/-- The tRPC error codes thrown by this middleware file. -/
inductive TRPCErrorCode where
  | UNAUTHORIZED
  | BAD_REQUEST
  | PRECONDITION_FAILED
  | FORBIDDEN
  | TOO_MANY_REQUESTS
deriving DecidableEq, Repr

/-- A thrown TRPCError: a code together with its user-facing message. -/
structure TRPCError where
  code : TRPCErrorCode
  message : String
deriving DecidableEq, Repr

/-- The account object embedded in session attributes
(`ctx.account.session.attributes.account`). -/
structure SessionAccountAttributes where
  id : String
deriving DecidableEq, Repr

/-- Attributes of a session record as used by the middleware. -/
structure SessionAttributes where
  account : SessionAccountAttributes
deriving DecidableEq, Repr

/-- A session record attached to the authenticated account. -/
structure AccountSession where
  attributes : SessionAttributes
deriving DecidableEq, Repr

/-- The resolved identity in the request context (`ctx.account`):
a top-level id plus the full session record. -/
structure Account where
  id : String
  session : AccountSession
deriving DecidableEq, Repr

/-- One entry of the member list of an organization: the membership
record id and the account id it belongs to. -/
structure OrgMember where
  id : String
  accountId : String
deriving DecidableEq, Repr

/-- The selected organization in the request context (`ctx.org`), as the
middleware uses it: its member list. -/
structure Org where
  members : List OrgMember
deriving DecidableEq, Repr

/-- The transport event (h3 event); the middleware only reads the caller
IP from it, via `getRequestIP`, which can be absent. -/
structure Event where
  ip : Option String
deriving DecidableEq, Repr

/-- The request context threaded through the middleware chain: resolved
identity (possibly null), selected organization (possibly null), and the
transport event. -/
structure Ctx where
  account : Option Account
  org : Option Org
  event : Event
deriving DecidableEq, Repr

/-- The context forwarded by `isAccountAuthenticated`: the account field
is statically non-null. -/
structure AuthedCtx where
  account : Account
  org : Option Org
  event : Event
deriving DecidableEq, Repr

/-- The organization object forwarded by `hasOrgSlug`: the original
organization fields augmented with the matched membership id
(`{ ...ctx.org, memberId: orgMembership.id }`). -/
structure OrgWithMemberId where
  members : List OrgMember
  memberId : String
deriving DecidableEq, Repr

/-- The context forwarded by `hasOrgSlug`: non-null account and an
organization augmented with `memberId`. -/
structure OrgCtx where
  account : Account
  org : OrgWithMemberId
  event : Event
deriving DecidableEq, Repr

/-- The process-wide runtime configuration consulted by the gates:
`useRuntimeConfig().billing?.enabled`, `useRuntimeConfig().turnstile.secretKey`,
`useRuntimeConfig().unkey.rootKey`, and `process.env.NODE_ENV === "development"`.
String-valued entries use the empty string for an unconfigured value
(JavaScript falsy). -/
structure RuntimeConfig where
  billingEnabled : Bool
  turnstileSecretKey : String
  unkeyRootKey : String
  nodeEnvDevelopment : Bool
deriving DecidableEq, Repr

/-- JavaScript truthiness test for an optional string: falsy when absent
or empty. -/
def strOptFalsy : Option String → Bool
  | none => true
  | some s => s == ""

/-- `TRPCError` thrown by `isAccountAuthenticated`. -/
def errNotLoggedIn : TRPCError :=
  { code := .UNAUTHORIZED, message := "You are not logged in, redirecting..." }

/-- `TRPCError` thrown by `hasOrgSlug` when no organization is selected. -/
def errInvalidOrg : TRPCError :=
  { code := .BAD_REQUEST, message := "Invalid organization selected, redirecting..." }

/-- `TRPCError` thrown by `hasOrgSlug` when the account is not a member. -/
def errNotOrgMember : TRPCError :=
  { code := .UNAUTHORIZED,
    message := "You are not a member of this organization, redirecting..." }

/-- `TRPCError` thrown by `isEeEnabled`. -/
def errEeDisabled : TRPCError :=
  { code := .PRECONDITION_FAILED,
    message := "Enterprise Edition features are disabled on this server" }

/-- `TRPCError` thrown by `turnstileTokenValidation` when the token is missing. -/
def errMissingTurnstile : TRPCError :=
  { code := .FORBIDDEN, message := "Missing Turnstile Verification Token" }

/-- `TRPCError` thrown by `turnstileTokenValidation` when verification fails. -/
def errInvalidTurnstile : TRPCError :=
  { code := .BAD_REQUEST, message := "Invalid Turnstile Verification Token" }

/-- `TRPCError` thrown by the rate-limit middleware. -/
def errTooManyRequests : TRPCError :=
  { code := .TOO_MANY_REQUESTS, message := "Too many requests, please try again later" }

/-- The authentication gate (`isAccountAuthenticated` middleware):
throws UNAUTHORIZED when `!ctx.account || !ctx.account.session.attributes.account.id
|| !ctx.account.id`, otherwise forwards `{ ...ctx, account: ctx.account }`. -/
def isAccountAuthenticated (ctx : Ctx) : Except TRPCError AuthedCtx :=
  match ctx.account with
  | none => .error errNotLoggedIn
  | some account =>
    if account.session.attributes.account.id = "" ∨ account.id = "" then
      .error errNotLoggedIn
    else
      .ok { account := account, org := ctx.org, event := ctx.event }

/-- The organization membership gate (`hasOrgSlug`), which is
`isAccountAuthenticated.unstable_pipe(...)`: after the authentication
gate succeeds, throws BAD_REQUEST when no organization is selected,
scans the member list with `find` for a member whose `accountId` equals
the authenticated account id, throws UNAUTHORIZED when
`!accountId || !orgMembership`, and otherwise forwards
`{ ...ctx, org: { ...ctx.org, memberId: orgMembership.id } }`.
In the source the two failure conditions are tested in a single
`if (!accountId || !orgMembership)` throwing one error; here the scan
result is matched first, which yields the same error either way. The
local `const accountId = ctx.account?.id` of the source is inlined:
after the authentication gate the account is non-null, so the optional
chaining yields exactly `actx.account.id`. -/
def hasOrgSlug (ctx : Ctx) : Except TRPCError OrgCtx :=
  match isAccountAuthenticated ctx with
  | .error e => .error e
  | .ok actx =>
    match actx.org with
    | none => .error errInvalidOrg
    | some org =>
      match org.members.find? (fun member => member.accountId == actx.account.id) with
      | none => .error errNotOrgMember
      | some orgMembership =>
        if actx.account.id = "" then .error errNotOrgMember
        else
          .ok { account := actx.account,
                org := { members := org.members, memberId := orgMembership.id },
                event := actx.event }

/-- The enterprise feature-flag gate (`isEeEnabled` middleware): reads
`useRuntimeConfig().billing?.enabled` when the call executes; throws
PRECONDITION_FAILED when falsy, otherwise `next()` forwards the context
unchanged. Generic in the context type, as the source middleware is. -/
def isEeEnabled {α : Type} (cfg : RuntimeConfig) (ctx : α) : Except TRPCError α :=
  if !cfg.billingEnabled then .error errEeDisabled
  else .ok ctx

/-- The bot-verification gate (`turnstileTokenValidation` standalone
middleware). `verifyTurnstileToken` is the external verification API,
called with the response token and the configured secret key, returning
the success verdict. The input token is optional at the middleware level
(`turnstileToken?: string`); the `!opts.input.turnstileToken` test is
JavaScript falsiness, so an empty-string token is treated as missing.
`next()` forwards the context unchanged. -/
def turnstileTokenValidation (cfg : RuntimeConfig)
    (verifyTurnstileToken : String → String → Bool)
    (turnstileToken : Option String) (ctx : Ctx) : Except TRPCError Ctx :=
  if cfg.turnstileSecretKey = "" then .ok ctx
  else if strOptFalsy turnstileToken then
    if cfg.nodeEnvDevelopment then .ok ctx
    else .error errMissingTurnstile
  else
    if verifyTurnstileToken (turnstileToken.getD "") cfg.turnstileSecretKey then
      .ok ctx
    else .error errInvalidTurnstile

/-- `getRequestIP(ctx.event)` from h3: the caller IP, possibly absent. -/
def getRequestIP (event : Event) : Option String := event.ip

/-- The rate-limit key `ip || "unknown"`: the caller IP when truthy,
otherwise the literal string "unknown". -/
def ipKey (event : Event) : String :=
  match getRequestIP event with
  | none => "unknown"
  | some ip => if ip = "" then "unknown" else ip

/-- The per-call body of the rate-limit middleware: calls the limiter
with `ip || "unknown"`; on a failure verdict throws TOO_MANY_REQUESTS,
otherwise `next()` forwards the context unchanged. The limiter is the
success verdict per key of `unkey.limit`. -/
def ratelimitMiddleware (unkey : String → Bool) (ctx : Ctx) : Except TRPCError Ctx :=
  if !unkey (ipKey ctx.event) then .error errTooManyRequests
  else .ok ctx

/-- `new NoopRatelimit().limit`: always succeeds. -/
def noopRatelimitLimit : String → Bool := fun _ => true

/-- `createRatelimiter({limit, duration, namespace})`: executed when the
procedure object is built. Reads `useRuntimeConfig().unkey.rootKey` at
that moment; when truthy it builds the real limiter bound to
(limit, duration, namespace, rootKey) — modelled by the abstract service
oracle `ratelimitService` — and otherwise substitutes the no-op limiter.
Returns the per-call middleware closed over that choice. -/
def createRatelimiter (cfg : RuntimeConfig)
    (ratelimitService : Nat → String → String → String → String → Bool)
    (limit : Nat) (duration : String) (nspace : String) :
    Ctx → Except TRPCError Ctx :=
  let rootKey := cfg.unkeyRootKey
  let unkey : String → Bool :=
    if rootKey = "" then noopRatelimitLimit
    else fun key => ratelimitService limit duration nspace rootKey key
  ratelimitMiddleware unkey

/-- `eeProcedure = orgProcedure.use(isEeEnabled)`: the organization chain
followed by the feature-flag gate. -/
def eeProcedure (cfg : RuntimeConfig) (ctx : Ctx) : Except TRPCError OrgCtx :=
  match hasOrgSlug ctx with
  | .error e => .error e
  | .ok octx => isEeEnabled cfg octx

/-- A run of `eeProcedure` at call time n under a time-indexed
configuration: both middleware bodies read `useRuntimeConfig()` when the
call executes, hence at index n. -/
def eeProcedureCallAt (cfg : Nat → RuntimeConfig) (n : Nat) (ctx : Ctx) :
    Except TRPCError OrgCtx :=
  match hasOrgSlug ctx with
  | .error e => .error e
  | .ok octx => isEeEnabled (cfg n) octx

/-- A run of a public rate-limited procedure at call time n under a
time-indexed configuration. The turnstile middleware body reads the
configuration when the call executes (index n); `createRatelimiter` was
executed once when the procedure object was built at process start
(index 0), and the rate-limit middleware uses the limiter chosen then. -/
def publicRateLimitedCallAt (cfg : Nat → RuntimeConfig)
    (verifyTurnstileToken : String → String → Bool)
    (ratelimitService : Nat → String → String → String → String → Bool)
    (limit : Nat) (duration : String) (nspace : String)
    (n : Nat) (turnstileToken : Option String) (ctx : Ctx) :
    Except TRPCError Ctx :=
  match turnstileTokenValidation (cfg n) verifyTurnstileToken turnstileToken ctx with
  | .error e => .error e
  | .ok ctx2 => createRatelimiter (cfg 0) ratelimitService limit duration nspace ctx2

/-- User attributes embedded in a stored session record
(`sessionObject.attributes.user`). -/
structure DatabaseSessionUserAttributes where
  id : String
deriving DecidableEq, Repr

/-- Attributes of a stored session record. -/
structure DatabaseSessionAttributes where
  user : DatabaseSessionUserAttributes
deriving DecidableEq, Repr

/-- A session record as returned by the session store (lucia
`DatabaseSession`), restricted to the fields the handler reads. -/
structure DatabaseSession where
  attributes : DatabaseSessionAttributes
deriving DecidableEq, Repr

/-- The identity attached to the request context by the session
resolver (`UserContext`). -/
structure UserContext where
  id : String
  session : DatabaseSession
deriving DecidableEq, Repr

/-- The session-resolution event handler: `getCookie(event, "unsession")`
is passed in as its result (absent or a string value), and
`useStorage("sessions").getItem` is the abstract keyed store. The handler
sets `event.context.user` to the returned value: null when the cookie is
falsy (`!sessionCookie`), null when the store lookup returns no record
(`!sessionObject`), and otherwise an identity built from the embedded
user id and the full record. -/
def sessionResolver (sessionCookie : Option String)
    (sessionStorageGetItem : String → Option DatabaseSession) : Option UserContext :=
  match sessionCookie with
  | none => none
  | some cookie =>
    if cookie = "" then none
    else
      match sessionStorageGetItem cookie with
      | none => none
      | some sessionObject =>
        some { id := sessionObject.attributes.user.id, session := sessionObject }

/-- The gate kinds appearing in procedure compositions, for the
structural (order-of-composition) claims. The rate limiter gate carries
the (limit, duration, namespace) it was constructed with. -/
inductive Gate where
  | accountAuthCheck
  | orgMembershipCheck
  | eeEnabledCheck
  | turnstileCheck
  | ratelimiter (limit : Nat) (duration : String) (nspace : String)
deriving DecidableEq, Repr

/-- `hasOrgSlug = isAccountAuthenticated.unstable_pipe(...)`: the
authentication check followed by the membership check. -/
def hasOrgSlugGates : List Gate := [Gate.accountAuthCheck, Gate.orgMembershipCheck]

/-- `orgProcedure = trpcContext.procedure.use(hasOrgSlug)`. -/
def orgProcedureGates : List Gate := hasOrgSlugGates

/-- `eeProcedure = orgProcedure.use(isEeEnabled)`. -/
def eeProcedureGates : List Gate := orgProcedureGates ++ [Gate.eeEnabledCheck]

/-- A composed procedure: whether its input schema requires the
`turnstileToken` string field, and its ordered gate list. -/
structure ProcedureDef where
  requiresTurnstileTokenInput : Bool
  gates : List Gate
deriving DecidableEq, Repr

/-- The static route table `publicRateLimits`: route name with its
(limit, duration) pair. -/
def publicRateLimits : List (String × Nat × String) :=
  [("checkUsernameAvailability", 100, "1m"),
   ("checkPasswordStrength", 100, "1m"),
   ("signUpPasskeyStart", 100, "1m"),
   ("signUpPasskeyFinish", 100, "1m"),
   ("generatePasskeyChallenge", 100, "1m"),
   ("verifyPasskey", 100, "1m"),
   ("signUpWithPassword", 100, "1m"),
   ("signInWithPassword", 100, "1m"),
   ("validateInvite", 100, "1m")]

/-- `publicRateLimitedProcedure`: built by reducing over the entries of
the route table, assigning to each route name a procedure that requires
the `turnstileToken` input field and uses the turnstile gate then a rate
limiter constructed with the limit and duration of that route and the namespace
`"public." + key`. -/
def publicRateLimitedProcedure : List (String × ProcedureDef) :=
  publicRateLimits.foldl
    (fun acc entry =>
      acc ++ [(entry.1,
        { requiresTurnstileTokenInput := true,
          gates := [Gate.turnstileCheck,
                    Gate.ratelimiter entry.2.1 entry.2.2 ("public." ++ entry.1)] })])
    []

/-- A sample account whose ids are non-empty and consistent. -/
def accountEx : Account :=
  { id := "acc1", session := { attributes := { account := { id := "acc1" } } } }

/-- A sample member list entry that does not match `accountEx`. -/
def memberEx0 : OrgMember := { id := "mem0", accountId := "accX" }

/-- A sample member list entry matching `accountEx`. -/
def memberEx : OrgMember := { id := "mem1", accountId := "acc1" }

/-- A sample organization whose member list contains a match for
`accountEx` in second position. -/
def orgEx : Org := { members := [memberEx0, memberEx] }

/-- A sample transport event carrying a caller IP. -/
def eventEx : Event := { ip := some "203.0.113.7" }

/-- A sample request context: authenticated account, selected
organization, transport event. -/
def ctxEx : Ctx := { account := some accountEx, org := some orgEx, event := eventEx }

/-- A sample authenticated context with no selected organization. -/
def ctxNoOrgEx : Ctx := { account := some accountEx, org := none, event := eventEx }

/-- The authenticated context forwarded by the authentication gate on
`ctxEx`. -/
def authedCtxEx : AuthedCtx :=
  { account := accountEx, org := some orgEx, event := eventEx }

/-- The authenticated context forwarded by the authentication gate on
`ctxNoOrgEx`. -/
def authedCtxNoOrgEx : AuthedCtx :=
  { account := accountEx, org := none, event := eventEx }

/-- The membership-augmented context forwarded by `hasOrgSlug` on `ctxEx`. -/
def orgCtxEx : OrgCtx :=
  { account := accountEx,
    org := { members := orgEx.members, memberId := "mem1" },
    event := eventEx }

/-- A sample production-like configuration: billing enabled, turnstile
secret and unkey root key configured, not in development mode. -/
def cfgProdEx : RuntimeConfig :=
  { billingEnabled := true, turnstileSecretKey := "sk_test",
    unkeyRootKey := "rk_test", nodeEnvDevelopment := false }

/-- A time-indexed configuration in which the unkey root key is
unconfigured at process start (index 0) and configured afterwards; the
turnstile secret stays unconfigured and billing stays enabled. -/
def cfgSeqEx : Nat → RuntimeConfig := fun n =>
  { billingEnabled := true, turnstileSecretKey := "",
    unkeyRootKey := if n = 0 then "" else "rk_live_123",
    nodeEnvDevelopment := false }

/-- A rate-limit service oracle that rejects every request. -/
def failingRatelimitService : Nat → String → String → String → String → Bool :=
  fun _ _ _ _ _ => false

/-- A sample stored session record. -/
def sessionRecEx : DatabaseSession := { attributes := { user := { id := "acc9" } } }

/-- A session store holding a record under every key, the empty key
included. -/
def constSessionStoreEx : String → Option DatabaseSession := fun _ => some sessionRecEx

/-- A session store holding a record under the key "cookie1" only. -/
def storeEx : String → Option DatabaseSession := fun c =>
  if c = "cookie1" then some sessionRecEx else none

/-- Inversion of a successful run of the authentication gate: the
context held the forwarded account, the other fields pass through, and
both checked ids are non-empty. -/
theorem isAccountAuthenticated_ok (ctx : Ctx) (actx : AuthedCtx)
    (h : isAccountAuthenticated ctx = .ok actx) :
    ctx.account = some actx.account ∧ actx.org = ctx.org ∧ actx.event = ctx.event ∧
    actx.account.session.attributes.account.id ≠ "" ∧ actx.account.id ≠ "" := by
  unfold isAccountAuthenticated at h
  split at h
  · exact absurd h (by simp)
  · rename_i a heq
    split at h
    · exact absurd h (by simp)
    · rename_i hc
      injection h with h2
      subst h2
      push_neg at hc
      exact ⟨heq, rfl, rfl, hc.1, hc.2⟩

/-- Claim C1: the authentication gate aborts with UNAUTHORIZED exactly
when the account is null, the session-embedded account id is empty, or
the top-level account id is empty; otherwise it forwards a context with
a non-null account (the same account, other fields passed through). -/
theorem C1_auth_gate_characterisation (ctx : Ctx) :
    (isAccountAuthenticated ctx = .error errNotLoggedIn ↔
      ctx.account = none ∨
        ∃ a, ctx.account = some a ∧
          (a.session.attributes.account.id = "" ∨ a.id = "")) ∧
    (∀ a, ctx.account = some a →
      a.session.attributes.account.id ≠ "" → a.id ≠ "" →
      isAccountAuthenticated ctx =
        .ok { account := a, org := ctx.org, event := ctx.event }) := by
  constructor
  · cases hacc : ctx.account with
    | none => simp [isAccountAuthenticated, hacc]
    | some a =>
      by_cases hc : a.session.attributes.account.id = "" ∨ a.id = ""
      · simp [isAccountAuthenticated, hacc, hc]
      · push_neg at hc
        simp [isAccountAuthenticated, hacc, hc.1, hc.2]
  · intro a ha h1 h2
    simp [isAccountAuthenticated, ha, h1, h2]

/-- Witness for C1 at the sample context. -/
theorem C1_witness : isAccountAuthenticated ctxEx = .ok authedCtxEx :=
  (C1_auth_gate_characterisation ctxEx).2 accountEx rfl (by decide) (by decide)

/-- Claim C2: on an authenticated context with a selected organization,
the membership gate aborts with UNAUTHORIZED when the account id is
missing or when the member-list scan finds no member whose accountId
equals the authenticated account id, and otherwise forwards a context
whose org.memberId is the id of the record the scan matched. -/
theorem C2_org_membership_gate (ctx : Ctx) (actx : AuthedCtx) (org : Org)
    (hauth : isAccountAuthenticated ctx = .ok actx) (horg : actx.org = some org) :
    (actx.account.id = "" → hasOrgSlug ctx = .error errNotOrgMember) ∧
    (org.members.find? (fun member => member.accountId == actx.account.id) = none →
      hasOrgSlug ctx = .error errNotOrgMember) ∧
    (∀ m, org.members.find? (fun member => member.accountId == actx.account.id) = some m →
      hasOrgSlug ctx =
        .ok { account := actx.account,
              org := { members := org.members, memberId := m.id },
              event := actx.event }) := by
  obtain ⟨-, -, -, -, hid⟩ := isAccountAuthenticated_ok ctx actx hauth
  refine ⟨fun h => absurd h hid, ?_, ?_⟩
  · intro hfind
    simp [hasOrgSlug, hauth, horg, hfind]
  · intro m hfind
    simp [hasOrgSlug, hauth, horg, hfind, hid]

/-- Witness for C2 at the sample context: the scan matches the second
member list entry and its record id is forwarded as memberId. -/
theorem C2_witness : hasOrgSlug ctxEx = .ok orgCtxEx :=
  (C2_org_membership_gate ctxEx authedCtxEx orgEx (by rfl) rfl).2.2 memberEx (by rfl)

/-- Claim C3: on an authenticated context with no selected organization,
the membership gate aborts with BAD_REQUEST. No member list exists in
such a context (the member list lives inside the absent organization),
so no membership scan can occur: the gate aborts on the organization
check alone. -/
theorem C3_no_org_bad_request (ctx : Ctx) (actx : AuthedCtx)
    (hauth : isAccountAuthenticated ctx = .ok actx) (horg : actx.org = none) :
    hasOrgSlug ctx = .error errInvalidOrg := by
  simp [hasOrgSlug, hauth, horg]

/-- Witness for C3 at the sample organization-less context. -/
theorem C3_witness : hasOrgSlug ctxNoOrgEx = .error errInvalidOrg :=
  C3_no_org_bad_request ctxNoOrgEx authedCtxNoOrgEx (by rfl) rfl

/-- Inversion of a successful run of the membership gate: the account
field passes through, the organization keeps its member list (augmented
with memberId), and the event passes through. -/
theorem hasOrgSlug_ok (ctx : Ctx) (octx : OrgCtx) (h : hasOrgSlug ctx = .ok octx) :
    ctx.account = some octx.account ∧
    (∃ org, ctx.org = some org ∧ octx.org.members = org.members) ∧
    octx.event = ctx.event := by
  unfold hasOrgSlug at h
  split at h
  · exact absurd h (by simp)
  · rename_i actx heq
    obtain ⟨hacc, horg, hev, -, -⟩ := isAccountAuthenticated_ok ctx actx heq
    split at h
    · exact absurd h (by simp)
    · rename_i org horgeq
      split at h
      · exact absurd h (by simp)
      · split at h
        · exact absurd h (by simp)
        · injection h with h2
          subst h2
          exact ⟨hacc, ⟨org, by rw [← horg, horgeq], rfl⟩, hev⟩

/-- Claim C9: every gate that forwards preserves the previously set
context fields. The authentication gate re-asserts the account and
passes the other fields through; the membership gate passes account and
event through and only augments the organization with memberId, keeping
its member list; the feature-flag, bot-verification, and rate-limiter
gates forward the context unchanged. -/
theorem C9_gates_append_only :
    (∀ ctx actx, isAccountAuthenticated ctx = .ok actx →
      ctx.account = some actx.account ∧ actx.org = ctx.org ∧ actx.event = ctx.event) ∧
    (∀ ctx octx, hasOrgSlug ctx = .ok octx →
      ctx.account = some octx.account ∧
      (∃ org, ctx.org = some org ∧ octx.org.members = org.members) ∧
      octx.event = ctx.event) ∧
    (∀ (α : Type) (cfg : RuntimeConfig) (ctx fwd : α),
      isEeEnabled cfg ctx = .ok fwd → fwd = ctx) ∧
    (∀ cfg verify token ctx fwd,
      turnstileTokenValidation cfg verify token ctx = .ok fwd → fwd = ctx) ∧
    (∀ unkey ctx fwd, ratelimitMiddleware unkey ctx = .ok fwd → fwd = ctx) := by
  refine ⟨?_, ?_, ?_, ?_, ?_⟩
  · intro ctx actx h
    obtain ⟨h1, h2, h3, -, -⟩ := isAccountAuthenticated_ok ctx actx h
    exact ⟨h1, h2, h3⟩
  · intro ctx octx h
    exact hasOrgSlug_ok ctx octx h
  · intro α cfg ctx fwd h
    unfold isEeEnabled at h
    split at h
    · exact absurd h (by simp)
    · injection h with h2
      exact h2.symm
  · intro cfg verify token ctx fwd h
    unfold turnstileTokenValidation at h
    split_ifs at h <;> (injection h with h2; exact h2.symm)
  · intro unkey ctx fwd h
    unfold ratelimitMiddleware at h
    split_ifs at h
    injection h with h2
    exact h2.symm

/-- Witness for C9: the authentication conjunct discharged at the
sample context. -/
theorem C9_witness :
    ctxEx.account = some authedCtxEx.account ∧
    authedCtxEx.org = ctxEx.org ∧ authedCtxEx.event = ctxEx.event :=
  C9_gates_append_only.1 ctxEx authedCtxEx (by rfl)

/-- Claim C4: the bot-verification gate forwards unconditionally when no
secret is configured; with a secret configured and a falsy token it
forwards in development mode and otherwise aborts with FORBIDDEN; with a
truthy token it follows the external verdict `verify token secret`,
aborting with BAD_REQUEST on failure and forwarding unchanged on
success. A supplied empty-string token is falsy in the source
(`!opts.input.turnstileToken`), so "no token supplied" here means a
token that is absent or empty, consistent with claim C10. -/
theorem C4_turnstile_gate_cases (cfg : RuntimeConfig)
    (verify : String → String → Bool) (token : Option String) (ctx : Ctx) :
    (cfg.turnstileSecretKey = "" →
      turnstileTokenValidation cfg verify token ctx = .ok ctx) ∧
    (cfg.turnstileSecretKey ≠ "" → strOptFalsy token = true →
      (cfg.nodeEnvDevelopment = true →
        turnstileTokenValidation cfg verify token ctx = .ok ctx) ∧
      (cfg.nodeEnvDevelopment = false →
        turnstileTokenValidation cfg verify token ctx = .error errMissingTurnstile)) ∧
    (cfg.turnstileSecretKey ≠ "" → ∀ t, token = some t → t ≠ "" →
      (verify t cfg.turnstileSecretKey = true →
        turnstileTokenValidation cfg verify token ctx = .ok ctx) ∧
      (verify t cfg.turnstileSecretKey = false →
        turnstileTokenValidation cfg verify token ctx = .error errInvalidTurnstile)) := by
  refine ⟨?_, ?_, ?_⟩
  · intro h
    simp [turnstileTokenValidation, h]
  · intro h1 h2
    constructor
    · intro h3
      simp [turnstileTokenValidation, h1, h2, h3]
    · intro h3
      simp [turnstileTokenValidation, h1, h2, h3]
  · intro h1 t ht hne
    subst ht
    have hf : strOptFalsy (some t) = false := by
      simp [strOptFalsy, hne]
    constructor
    · intro hv
      simp [turnstileTokenValidation, h1, hf, hv]
    · intro hv
      simp [turnstileTokenValidation, h1, hf, hv]

/-- Witness for C4: with a configured secret, a non-empty token and a
verifier answering success, the gate forwards the sample context. -/
theorem C4_witness :
    turnstileTokenValidation cfgProdEx (fun _ _ => true) (some "tok") ctxEx = .ok ctxEx :=
  ((C4_turnstile_gate_cases cfgProdEx (fun _ _ => true) (some "tok") ctxEx).2.2
    (by decide) "tok" rfl (by decide)).1 rfl

/-- Claim C10: with a secret configured and outside development mode, an
empty-string token — which satisfies the required `z.string()` input
field of the public rate-limited procedures — is falsy for
`!opts.input.turnstileToken`, so the gate aborts with FORBIDDEN exactly
as for an absent token. The statement holds for every verifier oracle,
so the result never depends on a verification call: the external API is
not consulted on this path. -/
theorem C10_empty_token_forbidden (cfg : RuntimeConfig)
    (h1 : cfg.turnstileSecretKey ≠ "") (h2 : cfg.nodeEnvDevelopment = false)
    (verify : String → String → Bool) (ctx : Ctx) :
    turnstileTokenValidation cfg verify (some "") ctx = .error errMissingTurnstile := by
  simp [turnstileTokenValidation, h1, h2, strOptFalsy]

/-- Witness for C10 at a production-like configuration, with a verifier
that would accept anything: the empty token is still rejected. -/
theorem C10_witness :
    turnstileTokenValidation cfgProdEx (fun _ _ => true) (some "") ctxEx =
      .error errMissingTurnstile :=
  C10_empty_token_forbidden cfgProdEx (by decide) rfl (fun _ _ => true) ctxEx

/-- Claim C5: the rate-limit middleware keys the limiter by the caller
IP from the transport event, falling back to the literal "unknown" when
the IP is absent (or empty, the same JavaScript falsy test as
`ip || "unknown"`); a failure verdict aborts with TOO_MANY_REQUESTS, a
success verdict forwards the context unchanged; and with no root
credential configured, `createRatelimiter` substitutes the no-op
limiter, so the gate always forwards. -/
theorem C5_ratelimit_gate (unkey : String → Bool) (cfg : RuntimeConfig)
    (svc : Nat → String → String → String → String → Bool)
    (limit : Nat) (duration nspace : String) (ctx : Ctx) :
    (∀ ip, getRequestIP ctx.event = some ip → ip ≠ "" →
      (unkey ip = true → ratelimitMiddleware unkey ctx = .ok ctx) ∧
      (unkey ip = false → ratelimitMiddleware unkey ctx = .error errTooManyRequests)) ∧
    (getRequestIP ctx.event = none ∨ getRequestIP ctx.event = some "" →
      (unkey "unknown" = true → ratelimitMiddleware unkey ctx = .ok ctx) ∧
      (unkey "unknown" = false →
        ratelimitMiddleware unkey ctx = .error errTooManyRequests)) ∧
    (cfg.unkeyRootKey = "" →
      createRatelimiter cfg svc limit duration nspace ctx = .ok ctx) := by
  refine ⟨?_, ?_, ?_⟩
  · intro ip hip hne
    have hkey : ipKey ctx.event = ip := by
      simp [ipKey, hip, hne]
    constructor
    · intro hv
      simp [ratelimitMiddleware, hkey, hv]
    · intro hv
      simp [ratelimitMiddleware, hkey, hv]
  · intro hip
    have hkey : ipKey ctx.event = "unknown" := by
      rcases hip with hip | hip <;> simp [ipKey, hip]
    constructor
    · intro hv
      simp [ratelimitMiddleware, hkey, hv]
    · intro hv
      simp [ratelimitMiddleware, hkey, hv]
  · intro h
    simp [createRatelimiter, h, ratelimitMiddleware, noopRatelimitLimit]

/-- Witness for C5: a limiter that always succeeds forwards the sample
context, keyed by its caller IP. -/
theorem C5_witness : ratelimitMiddleware (fun _ => true) ctxEx = .ok ctxEx :=
  ((C5_ratelimit_gate (fun _ => true) cfgProdEx failingRatelimitService
    100 "1m" "public.validateInvite" ctxEx).1 "203.0.113.7" rfl (by decide)).1 rfl

/-- The bot-verification gate reads only the turnstile secret and the
runtime mode from the configuration. -/
theorem turnstileTokenValidation_config_congr (c1 c2 : RuntimeConfig)
    (hs : c1.turnstileSecretKey = c2.turnstileSecretKey)
    (hd : c1.nodeEnvDevelopment = c2.nodeEnvDevelopment)
    (verify : String → String → Bool) (token : Option String) (ctx : Ctx) :
    turnstileTokenValidation c1 verify token ctx =
      turnstileTokenValidation c2 verify token ctx := by
  unfold turnstileTokenValidation
  rw [hs, hd]

/-- The rate-limiter construction reads only the unkey root key from the
configuration. -/
theorem createRatelimiter_config_congr (c1 c2 : RuntimeConfig)
    (hk : c1.unkeyRootKey = c2.unkeyRootKey)
    (svc : Nat → String → String → String → String → Bool)
    (limit : Nat) (duration nspace : String) :
    createRatelimiter c1 svc limit duration nspace =
      createRatelimiter c2 svc limit duration nspace := by
  unfold createRatelimiter
  rw [hk]

/-- The feature-flag gate reads only the billing flag from the
configuration. -/
theorem isEeEnabled_config_congr {α : Type} (c1 c2 : RuntimeConfig)
    (hb : c1.billingEnabled = c2.billingEnabled) :
    (isEeEnabled c1 : α → Except TRPCError α) = isEeEnabled c2 := by
  funext ctx
  unfold isEeEnabled
  rw [hb]

/-- Claim C6 (amended): the enterprise-feature flag, the verification
secret, and the runtime mode are read at the time of each gated call
(index n), and changing them changes the outcome of that call; the
rate-limiter root credential, by contrast, is read once inside
`createRatelimiter` when the procedure object is built at process start
(index 0), so a gated call never depends on the credential in force at
call time. First conjunct: the outcome of a public rate-limited call is
fixed by the call-time secret and mode together with the startup
credential. Second conjunct: the enterprise call outcome is fixed by the
call-time billing flag. Third and fourth conjuncts: the call-time flag,
secret, and mode each steer the outcome of the call they are read in. -/
theorem C6_config_read_times (cfg cfg2 : Nat → RuntimeConfig)
    (verify : String → String → Bool)
    (svc : Nat → String → String → String → String → Bool)
    (limit : Nat) (duration nspace : String) (n : Nat)
    (token : Option String) (ctx : Ctx) :
    ((cfg2 n).turnstileSecretKey = (cfg n).turnstileSecretKey →
     (cfg2 n).nodeEnvDevelopment = (cfg n).nodeEnvDevelopment →
     (cfg2 0).unkeyRootKey = (cfg 0).unkeyRootKey →
      publicRateLimitedCallAt cfg2 verify svc limit duration nspace n token ctx =
        publicRateLimitedCallAt cfg verify svc limit duration nspace n token ctx) ∧
    ((cfg2 n).billingEnabled = (cfg n).billingEnabled →
      eeProcedureCallAt cfg2 n ctx = eeProcedureCallAt cfg n ctx) ∧
    (∀ octx, hasOrgSlug ctx = .ok octx →
      ((cfg n).billingEnabled = true → eeProcedureCallAt cfg n ctx = .ok octx) ∧
      ((cfg n).billingEnabled = false →
        eeProcedureCallAt cfg n ctx = .error errEeDisabled)) ∧
    ((cfg n).turnstileSecretKey ≠ "" → (cfg n).nodeEnvDevelopment = false →
      strOptFalsy token = true →
      publicRateLimitedCallAt cfg verify svc limit duration nspace n token ctx =
        .error errMissingTurnstile) := by
  refine ⟨?_, ?_, ?_, ?_⟩
  · intro h1 h2 h3
    unfold publicRateLimitedCallAt
    rw [turnstileTokenValidation_config_congr (cfg2 n) (cfg n) h1 h2,
      createRatelimiter_config_congr (cfg2 0) (cfg 0) h3]
  · intro hb
    unfold eeProcedureCallAt
    rw [isEeEnabled_config_congr (cfg2 n) (cfg n) hb]
  · intro octx hok
    constructor <;> intro hb <;> simp [eeProcedureCallAt, hok, isEeEnabled, hb]
  · intro h1 h2 h3
    have ht : turnstileTokenValidation (cfg n) verify token ctx =
        .error errMissingTurnstile := by
      simp [turnstileTokenValidation, h1, h2, h3]
    simp [publicRateLimitedCallAt, ht]

/-- Witness for C6 (amended): the enterprise call at time 5 under a
constant configuration with billing enabled forwards the augmented
sample context. -/
theorem C6_witness : eeProcedureCallAt (fun _ => cfgProdEx) 5 ctxEx = .ok orgCtxEx :=
  ((C6_config_read_times (fun _ => cfgProdEx) (fun _ => cfgProdEx) (fun _ _ => true)
      failingRatelimitService 100 "1m" "public.validateInvite" 5 none ctxEx).2.2.1
    orgCtxEx (by rfl)).1 rfl

/-- Claim C6 counterexample: the unkey root credential is read when
`createRatelimiter` executes, at procedure-build time (process start),
not at call time. Under `cfgSeqEx` the credential is unconfigured at
index 0 and configured from index 1 on; with a rate-limit service that
rejects every request, the call at time 1 still succeeds, because the
no-op limiter chosen at build time is in use, whereas a gate built from
the time-1 configuration aborts with TOO_MANY_REQUESTS. Changing the
root credential after startup therefore does not affect subsequent
rate-limit checks, contrary to the claim. -/
theorem C6_counterexample :
    (cfgSeqEx 0).unkeyRootKey ≠ (cfgSeqEx 1).unkeyRootKey ∧
    publicRateLimitedCallAt cfgSeqEx (fun _ _ => true) failingRatelimitService
      100 "1m" "public.validateInvite" 1 none ctxEx = .ok ctxEx ∧
    createRatelimiter (cfgSeqEx 1) failingRatelimitService
      100 "1m" "public.validateInvite" ctxEx = .error errTooManyRequests :=
  ⟨by decide, by rfl, by rfl⟩

/-- Claim C7: the enterprise procedure composes the authentication gate,
then the membership check, then the feature-flag gate, in that order;
the public rate-limited procedures carry one entry per route name of the
static route table, in table order, each requiring the turnstileToken
input field and composing the bot-verification gate before a rate
limiter built with the limit and duration of the route and the namespace
"public." followed by the route name. -/
theorem C7_procedure_composition :
    eeProcedureGates =
      [Gate.accountAuthCheck, Gate.orgMembershipCheck, Gate.eeEnabledCheck] ∧
    publicRateLimitedProcedure.map Prod.fst = publicRateLimits.map Prod.fst ∧
    (∀ key limit duration, (key, limit, duration) ∈ publicRateLimits →
      (key, { requiresTurnstileTokenInput := true,
              gates := [Gate.turnstileCheck,
                        Gate.ratelimiter limit duration ("public." ++ key)] }) ∈
        publicRateLimitedProcedure) := by
  refine ⟨rfl, rfl, ?_⟩
  intro key limit duration hmem
  simp only [publicRateLimits, List.mem_cons, List.not_mem_nil, or_false,
    Prod.mk.injEq] at hmem
  rcases hmem with ⟨h1, h2, h3⟩ | ⟨h1, h2, h3⟩ | ⟨h1, h2, h3⟩ | ⟨h1, h2, h3⟩ |
    ⟨h1, h2, h3⟩ | ⟨h1, h2, h3⟩ | ⟨h1, h2, h3⟩ | ⟨h1, h2, h3⟩ | ⟨h1, h2, h3⟩ <;>
    subst h1 <;> subst h2 <;> subst h3 <;> decide

/-- Witness for C7 at the validateInvite route. -/
theorem C7_witness :
    ("validateInvite",
      ({ requiresTurnstileTokenInput := true,
         gates := [Gate.turnstileCheck,
                   Gate.ratelimiter 100 "1m" ("public." ++ "validateInvite")] } :
        ProcedureDef)) ∈ publicRateLimitedProcedure :=
  C7_procedure_composition.2.2 "validateInvite" 100 "1m" (by decide)

/-- Claim C8 counterexample: the cookie test in the handler is
JavaScript falsiness (`!sessionCookie`), so a present but empty cookie
value short-circuits to a null identity without any store lookup — even
when the store holds a record under the empty key. The claim as stated
(a found record yields an attached identity whenever the cookie is
present) fails at cookie value "" with a store holding a record under
every key. -/
theorem C8_counterexample :
    ¬ (∀ (cookie : Option String) (store : String → Option DatabaseSession)
        (c : String) (s : DatabaseSession),
        cookie = some c → store c = some s →
        sessionResolver cookie store =
          some { id := s.attributes.user.id, session := s }) := by
  intro h
  have h2 := h (some "") constSessionStoreEx "" sessionRecEx rfl rfl
  simp [sessionResolver] at h2

/-- Claim C8 (amended): the resolver yields a null identity when the
session cookie is absent or empty, and when the cookie is non-empty but
the store lookup returns no record; when the cookie is non-empty and a
record is found, it yields an identity whose id is the embedded user id
of the record and whose session field is the full record. -/
theorem C8_session_resolver (cookie : Option String)
    (store : String → Option DatabaseSession) :
    (strOptFalsy cookie = true → sessionResolver cookie store = none) ∧
    (∀ c, cookie = some c → c ≠ "" → store c = none →
      sessionResolver cookie store = none) ∧
    (∀ c s, cookie = some c → c ≠ "" → store c = some s →
      sessionResolver cookie store =
        some { id := s.attributes.user.id, session := s }) := by
  refine ⟨?_, ?_, ?_⟩
  · intro h
    cases cookie with
    | none => rfl
    | some c =>
      simp only [strOptFalsy, beq_iff_eq] at h
      simp [sessionResolver, h]
  · intro c hc hne hst
    subst hc
    simp [sessionResolver, hne, hst]
  · intro c s hc hne hst
    subst hc
    simp [sessionResolver, hne, hst]

/-- Witness for C8 (amended): a non-empty cookie resolved through a
store holding a record under that key yields the identity built from
the record. -/
theorem C8_witness :
    sessionResolver (some "cookie1") storeEx =
      some { id := sessionRecEx.attributes.user.id, session := sessionRecEx } :=
  (C8_session_resolver (some "cookie1") storeEx).2.2 "cookie1" sessionRecEx rfl
    (by decide) (by rfl)
